import Mathlib

/-
  Verification of the input-to-actuator dispatch core of VibeCheck
  (src-tauri/src/toy_handling/handling.rs and toyops.rs).

  Modelling choices:
  - f64 values are modelled as rationals; the Rust rounding and clamping
    primitives are given explicit rational definitions.
  - u64 arithmetic is modelled on naturals with explicit wrapping
    (release-mode semantics) where subtraction may underflow.
  - Instants are modelled as rational absolute times; every function that
    reads the clock takes the current time as an explicit argument.
  - Fields of the Rust structs that no claim touches (device handles,
    battery state, notification plumbing, anatomy tags) are omitted.
-/

namespace VibeCheck

/-- Rust f64 clamp: if below lo take lo, if above hi take hi, else the value. -/
def fclamp (v lo hi : ℚ) : ℚ :=
  if v < lo then lo else if v > hi then hi else v

/-- Rust f64 round: round half away from zero. -/
def fround (q : ℚ) : ℚ :=
  if q < 0 then -((⌊-q + 1/2⌋ : ℤ) : ℚ) else ((⌊q + 1/2⌋ : ℤ) : ℚ)

/-- Rust cast f64 as usize: truncate toward zero, saturating at the bounds. -/
def f64AsUsize (q : ℚ) : ℕ :=
  if q ≤ 0 then 0 else min (⌊q⌋.toNat) (2 ^ 64 - 1)

/-- LevelTweaks from toyops.rs. The constant_level field is referenced by
the Constant branch of mode_processor_logic in handling.rs. -/
structure LevelTweaks where
  minimum_level : ℚ
  maximum_level : ℚ
  idle_level : ℚ
  smooth_rate : ℚ
  linear_position_speed : ℕ
  rate_tune : ℚ
  constant_level : ℚ
  deriving DecidableEq, Repr

/-- Default for LevelTweaks from toyops.rs. -/
def LevelTweaks.default : LevelTweaks :=
  { minimum_level := 0
    maximum_level := 1
    idle_level := 0
    smooth_rate := 2
    linear_position_speed := 100
    rate_tune := 4/10
    constant_level := 0 }

/-- flip_float64 from handling.rs: round of (1 - orig) times 100, over 100. -/
def flip_float64 (orig : ℚ) : ℚ :=
  fround ((1 - orig) * 100) / 100

/-- clamp_and_flip from handling.rs. -/
def clamp_and_flip (value : ℚ) (flip : Bool) (levels : LevelTweaks) : ℚ :=
  let new_value :=
    if value = 0 then levels.idle_level
    else fclamp value levels.minimum_level levels.maximum_level
  if flip then flip_float64 new_value else new_value

/-- Spec-side restatement of clamp_and_flip, written from the words of the
specification: if v equals 0 output the idle level, else clamp between the
minimum and maximum level; if flip, apply round of (1 - v) times 100 over 100. -/
def clampAndFlipSpec (v : ℚ) (flip : Bool) (L : LevelTweaks) : ℚ :=
  let base := if v = 0 then L.idle_level else fclamp v L.minimum_level L.maximum_level
  if flip then fround ((1 - base) * 100) / 100 else base

/- ===== Rate limiter (ToyRateLimiter in handling.rs) ===== -/

/-- The u64 modulus. -/
def U64 : ℕ := 2 ^ 64

/-- Release-mode u64 wrapping subtraction for operands below the modulus. -/
def wrapSub (a b : ℕ) : ℕ := (a + U64 - b) % U64

/-- ToyRateLimiter state: last_update and messages_per_second, both u64. -/
structure ToyRateLimiter where
  last_update : ℕ
  messages_per_second : ℕ
  deriving DecidableEq, Repr

/-- ToyRateLimiter constructor from handling.rs: last_update starts at 0. -/
def ToyRateLimiter.new (messages_per_second : ℕ) : ToyRateLimiter :=
  { last_update := 0, messages_per_second := messages_per_second }

/-- can_send from handling.rs, with the wall-clock millisecond reading passed
in as an argument. Returns the updated state and the boolean result. -/
def ToyRateLimiter.can_send (st : ToyRateLimiter) (now : ℕ) : ToyRateLimiter × Bool :=
  let interval_ms := 1000 / st.messages_per_second
  if wrapSub now st.last_update ≥ interval_ms then
    ({ st with last_update := now }, true)
  else
    (st, false)

/- ===== Signal processors (handling.rs) ===== -/

/-- SmoothParser result type from toy_handling/mod.rs, as pattern-matched in
handling.rs. -/
inductive SmoothParser where
  | Smoothed (f : ℚ)
  | SkipZero (f : ℚ)
  | Smoothing
  deriving DecidableEq, Repr

/-- The zero-equivalent test used by parse_smoothing: the value equals 0 when
not flipped, or equals 1 when flipped. -/
def smoothZeroEquiv (flip : Bool) (v : ℚ) : Bool :=
  (!flip && decide (v = 0)) || (flip && decide (v = 1))

/-- parse_smoothing from handling.rs. The smooth queue is threaded explicitly:
the result pairs the updated queue with the SmoothParser outcome.
When the queue has reached smooth_rate and the input is zero-equivalent, the
source clears the queue and falls through to the zero-equivalent check, which
returns SkipZero; when not zero-equivalent it replaces the queue with the
rounded mean and returns Smoothed; below smooth_rate, a zero-equivalent input
returns SkipZero and otherwise the input is pushed and Smoothing returned. -/
def parse_smoothing (smooth_queue : List ℚ) (feature_levels : LevelTweaks)
    (float_level : ℚ) (flip_float : Bool) : List ℚ × SmoothParser :=
  if smooth_queue.length = f64AsUsize feature_levels.smooth_rate then
    if smoothZeroEquiv flip_float float_level then
      ([], SmoothParser.SkipZero float_level)
    else
      let m := fround (smooth_queue.sum / (smooth_queue.length : ℚ) * 100) / 100
      ([m], SmoothParser.Smoothed m)
  else
    if smoothZeroEquiv flip_float float_level then
      (smooth_queue, SmoothParser.SkipZero float_level)
    else
      (smooth_queue ++ [float_level], SmoothParser.Smoothing)

/-- RateParser result type from toy_handling/mod.rs, as pattern-matched in
handling.rs. -/
inductive RateParser where
  | SkipZero
  | RateCalculated (f : ℚ) (reset_timer : Bool)
  deriving DecidableEq, Repr

/-- RateProcessingValues from toy_handling/mod.rs: the saved level, the last
OSC input and the optional decrement timestamp (absolute time). -/
structure RateProcessingValues where
  rate_saved_level : ℚ
  rate_saved_osc_input : ℚ
  rate_timestamp : Option ℚ
  deriving DecidableEq, Repr

/-- parse_rate from handling.rs. The elapsed time of the stored instant is
(now - t); the state is threaded explicitly. -/
def parse_rate (processor : RateProcessingValues) (decrement_rate : ℚ)
    (float_level : ℚ) (flip_float : Bool) (now : ℚ) :
    RateProcessingValues × RateParser :=
  if (!flip_float && decide (float_level ≤ 0)) || (flip_float && decide (float_level ≥ 1)) then
    ({ processor with
        rate_saved_level := float_level
        rate_saved_osc_input := float_level },
      RateParser.SkipZero)
  else
    let dist :=
      if processor.rate_saved_osc_input > float_level then
        fclamp (processor.rate_saved_osc_input - float_level) 0 1
      else
        fclamp (float_level - processor.rate_saved_osc_input) 0 1
    let lvl := fclamp (processor.rate_saved_level + dist) 0 1
    let p := { processor with rate_saved_level := lvl, rate_saved_osc_input := float_level }
    match p.rate_timestamp with
    | some t =>
        if now - t ≥ 15/100 then
          let lvl2 := fclamp (lvl - decrement_rate) 0 1
          ({ p with rate_saved_level := lvl2 }, RateParser.RateCalculated lvl2 true)
        else
          (p, RateParser.RateCalculated lvl false)
    | none => (p, RateParser.RateCalculated lvl false)

/-- ModeProcessorInputType from toy_handling/mod.rs. -/
inductive ModeProcessorInputType where
  | Float (f : ℚ)
  | Boolean (b : Bool)
  deriving DecidableEq, Repr

/-- SmoothProcessingValues from toy_handling/mod.rs: the smoothing queue. -/
structure SmoothProcessingValues where
  smooth_queue : List ℚ
  deriving DecidableEq, Repr

/-- ProcessingModeValues from toy_handling/mod.rs, as pattern-matched in
mode_processor_logic. -/
inductive ProcessingModeValues where
  | Raw
  | Smooth (values : SmoothProcessingValues)
  | Rate (values : RateProcessingValues)
  | Constant
  deriving DecidableEq, Repr

/-- mode_processor_logic from handling.rs. State is threaded explicitly and
the clock reading is an argument; the result pairs the updated mode state
with the optional emitted value. -/
def mode_processor_logic (input : ModeProcessorInputType)
    (processor : ProcessingModeValues) (feature_levels : LevelTweaks)
    (flip_input : Bool) (now : ℚ) : ProcessingModeValues × Option ℚ :=
  match processor with
  | ProcessingModeValues.Raw =>
      (processor,
       match input with
       | ModeProcessorInputType.Float float_level => some float_level
       | ModeProcessorInputType.Boolean b => if b then some 1 else some 0)
  | ProcessingModeValues.Smooth values =>
      match input with
      | ModeProcessorInputType.Float float_level =>
          let r := parse_smoothing values.smooth_queue feature_levels float_level flip_input
          (ProcessingModeValues.Smooth ⟨r.1⟩,
           match r.2 with
           | SmoothParser.SkipZero f_out => some f_out
           | SmoothParser.Smoothed f_out => some f_out
           | SmoothParser.Smoothing => none)
      | ModeProcessorInputType.Boolean _ => (processor, none)
  | ProcessingModeValues.Rate values =>
      let values :=
        if values.rate_timestamp = none then
          { values with rate_timestamp := some now }
        else values
      match input with
      | ModeProcessorInputType.Float float_level =>
          let r := parse_rate values feature_levels.rate_tune float_level flip_input now
          match r.2 with
          | RateParser.SkipZero => (ProcessingModeValues.Rate r.1, some 0)
          | RateParser.RateCalculated f_out reset_timer =>
              (ProcessingModeValues.Rate
                 (if reset_timer then { r.1 with rate_timestamp := some now } else r.1),
               some f_out)
      | ModeProcessorInputType.Boolean _ => (ProcessingModeValues.Rate values, none)
  | ProcessingModeValues.Constant =>
      (processor,
       match input with
       | ModeProcessorInputType.Float float_level =>
           if float_level ≥ 1/2 then some feature_levels.constant_level else some 0
       | ModeProcessorInputType.Boolean b =>
           if b then some feature_levels.constant_level else some 0)

/-- Feed a list of inputs through mode_processor_logic, threading the mode
state, collecting the emitted options in order. -/
def runMode (feature_levels : LevelTweaks) (flip_input : Bool) (now : ℚ) :
    ProcessingModeValues → List ModeProcessorInputType →
    ProcessingModeValues × List (Option ℚ)
  | st, [] => (st, [])
  | st, x :: xs =>
      let r := mode_processor_logic x st feature_levels flip_input now
      let rest := runMode feature_levels flip_input now r.1 xs
      (rest.1, r.2 :: rest.2)

/- ===== Feature model (toyops.rs) ===== -/

/-- buttplug ActuatorType, the variants used by this code. -/
inductive ActuatorType where
  | Vibrate
  | Rotate
  | Oscillate
  | Constrict
  | Inflate
  | Position
  | Unknown
  deriving DecidableEq, Repr

/-- VCFeatureType from toyops.rs. -/
inductive VCFeatureType where
  | Vibrator
  | Rotator
  | Linear
  | Oscillate
  | Constrict
  | Inflate
  | Position
  | ScalarRotator
  deriving DecidableEq, Repr

/-- The Debug rendering of a VCFeatureType variant, as produced by the
format string in the populate routines. -/
def VCFeatureType.debugName : VCFeatureType → String
  | VCFeatureType.Vibrator => "Vibrator"
  | VCFeatureType.Rotator => "Rotator"
  | VCFeatureType.Linear => "Linear"
  | VCFeatureType.Oscillate => "Oscillate"
  | VCFeatureType.Constrict => "Constrict"
  | VCFeatureType.Inflate => "Inflate"
  | VCFeatureType.Position => "Position"
  | VCFeatureType.ScalarRotator => "ScalarRotator"

/-- VCToyFeature from toyops.rs. Timestamps are rational absolute times. -/
structure VCToyFeature where
  feature_enabled : Bool
  feature_type : VCFeatureType
  osc_parameter : String
  feature_index : ℕ
  flip_input_float : Bool
  feature_levels : LevelTweaks
  smooth_enabled : Bool
  smooth_queue : List ℚ
  rate_enabled : Bool
  rate_saved_level : ℚ
  rate_saved_osc_input : ℚ
  rate_timestamp : Option ℚ
  deriving DecidableEq, Repr

/-- VCToyFeature constructor from toyops.rs. -/
def VCToyFeature.new (osc_parameter : String) (feature_index : ℕ)
    (feature_type : VCFeatureType) : VCToyFeature :=
  { feature_enabled := true
    feature_type := feature_type
    osc_parameter := osc_parameter
    feature_index := feature_index
    flip_input_float := false
    feature_levels := LevelTweaks.default
    smooth_enabled := true
    smooth_queue := []
    rate_enabled := false
    rate_saved_level := 0
    rate_saved_osc_input := 0
    rate_timestamp := none }

/-- VCToyFeatures from toyops.rs: the ordered feature table. -/
structure VCToyFeatures where
  features : List VCToyFeature
  deriving DecidableEq, Repr

/-- The projection tuple pushed by get_features_from_param in toyops.rs:
every field of the feature except feature_enabled and osc_parameter. -/
structure ParsedFeature where
  feature_type : VCFeatureType
  feature_index : ℕ
  flip_input_float : Bool
  feature_levels : LevelTweaks
  smooth_enabled : Bool
  smooth_queue : List ℚ
  rate_enabled : Bool
  rate_saved_level : ℚ
  rate_saved_osc_input : ℚ
  rate_timestamp : Option ℚ
  deriving DecidableEq, Repr

/-- Build the projection tuple for one feature. -/
def VCToyFeature.toParsed (f : VCToyFeature) : ParsedFeature :=
  { feature_type := f.feature_type
    feature_index := f.feature_index
    flip_input_float := f.flip_input_float
    feature_levels := f.feature_levels
    smooth_enabled := f.smooth_enabled
    smooth_queue := f.smooth_queue
    rate_enabled := f.rate_enabled
    rate_saved_level := f.rate_saved_level
    rate_saved_osc_input := f.rate_saved_osc_input
    rate_timestamp := f.rate_timestamp }

/-- The accumulation loop of get_features_from_param: for each feature, if it
is enabled and its osc_parameter equals the requested parameter, push its
projection. -/
def getFeaturesLoop : List VCToyFeature → String → List ParsedFeature
  | [], _ => []
  | f :: rest, param =>
      if f.feature_enabled then
        if f.osc_parameter = param then
          f.toParsed :: getFeaturesLoop rest param
        else getFeaturesLoop rest param
      else getFeaturesLoop rest param

/-- get_features_from_param from toyops.rs: None when the accumulated list is
empty, otherwise Some of it. -/
def VCToyFeatures.get_features_from_param (fs : VCToyFeatures) (param : String) :
    Option (List ParsedFeature) :=
  let parsed := getFeaturesLoop fs.features param
  if parsed.isEmpty then none else some parsed

/- ===== Device attributes and the populate routines (toyops.rs) ===== -/

/-- The slice of ClientDeviceMessageAttributes the populate code reads: the
optional lists of scalar, rotate and linear actuator entries. For scalar
entries only the actuator type is inspected; rotate and linear entries carry
no data the code uses. -/
structure ClientDeviceMessageAttributes where
  scalar_cmd : Option (List ActuatorType)
  rotate_cmd : Option (List Unit)
  linear_cmd : Option (List Unit)
  deriving DecidableEq, Repr

/-- VCToyConfig from config/toy.rs, restricted to the fields this code reads
(the anatomy tag is omitted). -/
structure VCToyConfig where
  toy_name : String
  features : VCToyFeatures
  osc_data : Bool
  deriving DecidableEq, Repr

/-- VCToy from toyops.rs, restricted to the fields the populate routines
read and write. -/
structure VCToy where
  toy_id : ℕ
  toy_name : String
  toy_features : ClientDeviceMessageAttributes
  parsed_toy_features : VCToyFeatures
  osc_data : Bool
  config : Option VCToyConfig
  deriving DecidableEq, Repr

/-- The loop body of populate_linears: one Linear feature per linear entry,
with the running indexer as feature index and in the parameter path. -/
def populateLinearsLoop : ℕ → List Unit → List VCToyFeature
  | _, [] => []
  | i, _ :: rest =>
      VCToyFeature.new
        ("/avatar/parameters/" ++ VCFeatureType.Linear.debugName ++ "_" ++ toString i)
        i VCFeatureType.Linear
        :: populateLinearsLoop (i + 1) rest

/-- populate_linears from toyops.rs: appends the generated features when the
linear command attribute is present. -/
def populate_linears (parsed : List VCToyFeature)
    (features : ClientDeviceMessageAttributes) : List VCToyFeature :=
  match features.linear_cmd with
  | none => parsed
  | some l => parsed ++ populateLinearsLoop 0 l

/-- The loop body of populate_rotators: one Rotator feature per rotate entry. -/
def populateRotatorsLoop : ℕ → List Unit → List VCToyFeature
  | _, [] => []
  | i, _ :: rest =>
      VCToyFeature.new
        ("/avatar/parameters/" ++ VCFeatureType.Rotator.debugName ++ "_" ++ toString i)
        i VCFeatureType.Rotator
        :: populateRotatorsLoop (i + 1) rest

/-- populate_rotators from toyops.rs. -/
def populate_rotators (parsed : List VCToyFeature)
    (features : ClientDeviceMessageAttributes) : List VCToyFeature :=
  match features.rotate_cmd with
  | none => parsed
  | some l => parsed ++ populateRotatorsLoop 0 l

/-- The loop body of populate_scalars: dispatch on the actuator type. A Rotate
actuator yields a ScalarRotator feature whose parameter path uses the name
Rotator; an Unknown actuator pushes no feature; the indexer advances on every
entry either way. -/
def populateScalarsLoop : ℕ → List ActuatorType → List VCToyFeature
  | _, [] => []
  | i, a :: rest =>
      let tail := populateScalarsLoop (i + 1) rest
      match a with
      | ActuatorType.Rotate =>
          VCToyFeature.new
            ("/avatar/parameters/" ++ VCFeatureType.Rotator.debugName ++ "_" ++ toString i)
            i VCFeatureType.ScalarRotator :: tail
      | ActuatorType.Vibrate =>
          VCToyFeature.new
            ("/avatar/parameters/" ++ VCFeatureType.Vibrator.debugName ++ "_" ++ toString i)
            i VCFeatureType.Vibrator :: tail
      | ActuatorType.Constrict =>
          VCToyFeature.new
            ("/avatar/parameters/" ++ VCFeatureType.Constrict.debugName ++ "_" ++ toString i)
            i VCFeatureType.Constrict :: tail
      | ActuatorType.Inflate =>
          VCToyFeature.new
            ("/avatar/parameters/" ++ VCFeatureType.Inflate.debugName ++ "_" ++ toString i)
            i VCFeatureType.Inflate :: tail
      | ActuatorType.Oscillate =>
          VCToyFeature.new
            ("/avatar/parameters/" ++ VCFeatureType.Oscillate.debugName ++ "_" ++ toString i)
            i VCFeatureType.Oscillate :: tail
      | ActuatorType.Position =>
          VCToyFeature.new
            ("/avatar/parameters/" ++ VCFeatureType.Position.debugName ++ "_" ++ toString i)
            i VCFeatureType.Position :: tail
      | ActuatorType.Unknown => tail

/-- populate_scalars from toyops.rs. -/
def populate_scalars (parsed : List VCToyFeature)
    (features : ClientDeviceMessageAttributes) : List VCToyFeature :=
  match features.scalar_cmd with
  | none => parsed
  | some l => parsed ++ populateScalarsLoop 0 l

/-- populate_routine from toyops.rs: push linears, rotators then scalars onto
the parsed feature table, and set the config from the result. The file write
performed by save_toy_config is modelled by the caller. -/
def populate_routine (toy : VCToy) : VCToy :=
  let parsed :=
    populate_scalars
      (populate_rotators
        (populate_linears toy.parsed_toy_features.features toy.toy_features)
        toy.toy_features)
      toy.toy_features
  { toy with
      parsed_toy_features := ⟨parsed⟩
      config := some
        { toy_name := toy.toy_name
          features := ⟨parsed⟩
          osc_data := false } }

/-- The connected-toy feature count computed in populate_toy_config: the sum
of the lengths of the scalar, rotate and linear attribute lists. -/
def conn_toy_feature_count (a : ClientDeviceMessageAttributes) : ℕ :=
  (match a.scalar_cmd with | some l => l.length | none => 0)
    + (match a.rotate_cmd with | some l => l.length | none => 0)
    + (match a.linear_cmd with | some l => l.length | none => 0)

/-- populate_toy_config from toyops.rs. The boolean result records whether
the populate routine ran (and hence the config file was rewritten by
save_toy_config). -/
def populate_toy_config (toy : VCToy) : VCToy × Bool :=
  match toy.config with
  | some conf =>
      if conn_toy_feature_count toy.toy_features ≠ conf.features.features.length then
        (populate_routine toy, true)
      else
        ({ toy with
            parsed_toy_features := conf.features
            osc_data := conf.osc_data }, false)
  | none => (populate_routine toy, true)

/- ===== Dispatcher update and command emitter (handling.rs) ===== -/

/-- ToyUpdate from vcore, as pattern-matched by update_toy. -/
inductive ToyUpdate where
  | AddToy (toy : VCToy)
  | RemoveToy (id : ℕ)
  | AlterToy (toy : VCToy)
  deriving DecidableEq, Repr

/-- update_toy from handling.rs: only an AlterToy whose toy_id equals the
device index replaces the local feature table; everything else leaves it
unchanged. -/
def update_toy (toy : ToyUpdate) (dev_index : ℕ)
    (vc_toy_features : VCToyFeatures) : VCToyFeatures :=
  match toy with
  | ToyUpdate.AlterToy new_toy =>
      if new_toy.toy_id ≠ dev_index then vc_toy_features
      else new_toy.parsed_toy_features
  | _ => vc_toy_features

/-- The device-facing commands issued by command_toy: scalar, rotate and
linear maps, each holding the single entry the code constructs. -/
inductive ButtplugCommand where
  | scalar (feature_index : ℕ) (level : ℚ) (actuator : ActuatorType)
  | rotate (feature_index : ℕ) (level : ℚ) (clockwise : Bool)
  | linear (feature_index : ℕ) (duration : ℕ) (position : ℚ)
  deriving DecidableEq, Repr

/-- scalar_parse_levels_send_toy_cmd from handling.rs: clamp and flip the
level, then issue the one-entry scalar command. -/
def scalar_parse_levels_send_toy_cmd (scalar_level : ℚ) (feature_index : ℕ)
    (actuator_type : ActuatorType) (flip_float : Bool)
    (feature_levels : LevelTweaks) : ButtplugCommand :=
  ButtplugCommand.scalar feature_index
    (clamp_and_flip scalar_level flip_float feature_levels) actuator_type

/-- command_toy from handling.rs. The rate-limiter verdict is passed in as a
boolean; None models the silent drop when the limiter refuses. -/
def command_toy (can_send : Bool) (feature_type : VCFeatureType)
    (float_level : ℚ) (feature_index : ℕ) (flip_float : Bool)
    (feature_levels : LevelTweaks) : Option ButtplugCommand :=
  if !can_send then none
  else some
    (match feature_type with
     | VCFeatureType.Vibrator =>
         scalar_parse_levels_send_toy_cmd float_level feature_index
           ActuatorType.Vibrate flip_float feature_levels
     | VCFeatureType.Rotator =>
         ButtplugCommand.rotate feature_index
           (clamp_and_flip float_level flip_float feature_levels) true
     | VCFeatureType.Constrict =>
         scalar_parse_levels_send_toy_cmd float_level feature_index
           ActuatorType.Constrict flip_float feature_levels
     | VCFeatureType.Oscillate =>
         scalar_parse_levels_send_toy_cmd float_level feature_index
           ActuatorType.Oscillate flip_float feature_levels
     | VCFeatureType.Position =>
         scalar_parse_levels_send_toy_cmd float_level feature_index
           ActuatorType.Position flip_float feature_levels
     | VCFeatureType.Inflate =>
         scalar_parse_levels_send_toy_cmd float_level feature_index
           ActuatorType.Inflate flip_float feature_levels
     | VCFeatureType.Linear =>
         ButtplugCommand.linear feature_index
           feature_levels.linear_position_speed
           (clamp_and_flip float_level flip_float feature_levels)
     | VCFeatureType.ScalarRotator =>
         scalar_parse_levels_send_toy_cmd float_level feature_index
           ActuatorType.Rotate flip_float feature_levels)

/-- Spec-side description of the feature generated for one scalar actuator
entry at position i: a Rotate actuator yields a ScalarRotator feature whose
parameter path prints the name Rotator, the other known actuator kinds yield
the matching feature type, and an Unknown actuator yields no feature. -/
def scalarFeatureSpec (i : ℕ) : ActuatorType → Option VCToyFeature
  | ActuatorType.Rotate =>
      some (VCToyFeature.new
        ("/avatar/parameters/" ++ VCFeatureType.Rotator.debugName ++ "_" ++ toString i)
        i VCFeatureType.ScalarRotator)
  | ActuatorType.Vibrate =>
      some (VCToyFeature.new
        ("/avatar/parameters/" ++ VCFeatureType.Vibrator.debugName ++ "_" ++ toString i)
        i VCFeatureType.Vibrator)
  | ActuatorType.Constrict =>
      some (VCToyFeature.new
        ("/avatar/parameters/" ++ VCFeatureType.Constrict.debugName ++ "_" ++ toString i)
        i VCFeatureType.Constrict)
  | ActuatorType.Inflate =>
      some (VCToyFeature.new
        ("/avatar/parameters/" ++ VCFeatureType.Inflate.debugName ++ "_" ++ toString i)
        i VCFeatureType.Inflate)
  | ActuatorType.Oscillate =>
      some (VCToyFeature.new
        ("/avatar/parameters/" ++ VCFeatureType.Oscillate.debugName ++ "_" ++ toString i)
        i VCFeatureType.Oscillate)
  | ActuatorType.Position =>
      some (VCToyFeature.new
        ("/avatar/parameters/" ++ VCFeatureType.Position.debugName ++ "_" ++ toString i)
        i VCFeatureType.Position)
  | ActuatorType.Unknown => none

/- ===== Theorems ===== -/

/-- C5: for every value, flip flag and tweaks, clamp_and_flip equals the
idle level when the value is 0 and the clamp between minimum and maximum
level otherwise, with round of (1 - x) times 100 over 100 applied to that
result when the flip flag is set. -/
theorem C5_clamp_and_flip (v : ℚ) (flip : Bool) (L : LevelTweaks) :
    clamp_and_flip v flip L = clampAndFlipSpec v flip L := by
  cases flip <;> rfl

/-- C9: a boolean input delivered to a feature in Smooth mode or in Rate mode
makes the mode processor emit nothing: the returned option is none in both
modes, with no coercion of the boolean to a float. -/
theorem C9_bool_smooth_rate_none (b : Bool) (sv : SmoothProcessingValues)
    (rv : RateProcessingValues) (L : LevelTweaks) (flip : Bool) (now : ℚ) :
    (mode_processor_logic (ModeProcessorInputType.Boolean b)
        (ProcessingModeValues.Smooth sv) L flip now).2 = none ∧
    (mode_processor_logic (ModeProcessorInputType.Boolean b)
        (ProcessingModeValues.Rate rv) L flip now).2 = none := by
  exact ⟨rfl, rfl⟩

/-- C8: an UpdateToy signal carrying toy t replaces the local feature table
of the dispatcher wholesale when the toy_id of t equals the device index, and leaves
the table completely unchanged when it differs. -/
theorem C8_update_toy (t : VCToy) (dev_index : ℕ) (fs : VCToyFeatures) :
    (t.toy_id = dev_index →
      update_toy (ToyUpdate.AlterToy t) dev_index fs = t.parsed_toy_features) ∧
    (t.toy_id ≠ dev_index →
      update_toy (ToyUpdate.AlterToy t) dev_index fs = fs) := by
  constructor <;> intro h <;> simp [update_toy, h]

/-- Witness for C8 at a concrete toy and device index. -/
theorem C8_update_toy_witness :
    update_toy
      (ToyUpdate.AlterToy
        ⟨1, "a", ⟨none, none, none⟩,
          ⟨[VCToyFeature.new "/avatar/parameters/p" 0 VCFeatureType.Vibrator]⟩,
          false, none⟩)
      1 ⟨[]⟩ =
      ⟨[VCToyFeature.new "/avatar/parameters/p" 0 VCFeatureType.Vibrator]⟩ :=
  (C8_update_toy
    ⟨1, "a", ⟨none, none, none⟩,
      ⟨[VCToyFeature.new "/avatar/parameters/p" 0 VCFeatureType.Vibrator]⟩,
      false, none⟩ 1 ⟨[]⟩).1 rfl

/-- C4: when the rate limiter refuses, command_toy issues no device command
at all; otherwise it issues exactly one command: a rotate command mapping the
feature index to the clamped-and-flipped level with direction true for a
Rotator, a linear command mapping the feature index to the linear position
speed and the clamped-and-flipped level for a Linear, and a scalar command
keyed by the feature index with the clamped-and-flipped level for every other
feature type, with ScalarRotator using the Rotate actuator kind. -/
theorem C4_command_toy (can_send : Bool) (ft : VCFeatureType) (lvl : ℚ)
    (idx : ℕ) (flip : Bool) (L : LevelTweaks) :
    (can_send = false → command_toy can_send ft lvl idx flip L = none) ∧
    (can_send = true →
      command_toy can_send ft lvl idx flip L = some
        (match ft with
         | VCFeatureType.Rotator =>
             ButtplugCommand.rotate idx (clamp_and_flip lvl flip L) true
         | VCFeatureType.Linear =>
             ButtplugCommand.linear idx L.linear_position_speed (clamp_and_flip lvl flip L)
         | VCFeatureType.Vibrator =>
             ButtplugCommand.scalar idx (clamp_and_flip lvl flip L) ActuatorType.Vibrate
         | VCFeatureType.Oscillate =>
             ButtplugCommand.scalar idx (clamp_and_flip lvl flip L) ActuatorType.Oscillate
         | VCFeatureType.Constrict =>
             ButtplugCommand.scalar idx (clamp_and_flip lvl flip L) ActuatorType.Constrict
         | VCFeatureType.Inflate =>
             ButtplugCommand.scalar idx (clamp_and_flip lvl flip L) ActuatorType.Inflate
         | VCFeatureType.Position =>
             ButtplugCommand.scalar idx (clamp_and_flip lvl flip L) ActuatorType.Position
         | VCFeatureType.ScalarRotator =>
             ButtplugCommand.scalar idx (clamp_and_flip lvl flip L) ActuatorType.Rotate)) := by
  constructor <;> intro h <;> subst h <;> cases ft <;> rfl

/-- Witness for C4: with the limiter allowing, a Rotator feature issues the
rotate command, and with the limiter refusing nothing is issued. -/
theorem C4_command_toy_witness :
    command_toy true VCFeatureType.Rotator (1/2) 0 false LevelTweaks.default =
      some (ButtplugCommand.rotate 0 (clamp_and_flip (1/2) false LevelTweaks.default) true) ∧
    command_toy false VCFeatureType.Rotator (1/2) 0 false LevelTweaks.default = none :=
  ⟨(C4_command_toy true VCFeatureType.Rotator (1/2) 0 false LevelTweaks.default).2 rfl,
   (C4_command_toy false VCFeatureType.Rotator (1/2) 0 false LevelTweaks.default).1 rfl⟩

/-- The accumulation loop of get_features_from_param is the projection of the
enabled features matching the parameter, in table order. -/
lemma getFeaturesLoop_eq_filter (fs : List VCToyFeature) (p : String) :
    getFeaturesLoop fs p =
      (fs.filter (fun f => f.feature_enabled && f.osc_parameter == p)).map
        VCToyFeature.toParsed := by
  induction fs with
  | nil => rfl
  | cons f rest ih =>
      by_cases he : f.feature_enabled = true
      · by_cases hp : f.osc_parameter = p
        · simp [getFeaturesLoop, he, hp, ih]
        · simp [getFeaturesLoop, he, hp, ih]
      · simp [getFeaturesLoop, he, ih]

/-- C10: get_features_from_param returns Some of exactly the projections of
those features whose enabled flag is true and whose osc_parameter equals the
requested parameter, in table order, and returns None exactly when no such
feature exists. -/
theorem C10_get_features_from_param (fs : VCToyFeatures) (p : String) :
    fs.get_features_from_param p =
      (if ((fs.features.filter
              (fun f => f.feature_enabled && f.osc_parameter == p)).map
              VCToyFeature.toParsed).isEmpty
       then none
       else some ((fs.features.filter
              (fun f => f.feature_enabled && f.osc_parameter == p)).map
              VCToyFeature.toParsed)) ∧
    (fs.get_features_from_param p = none ↔
      ∀ f ∈ fs.features, ¬(f.feature_enabled = true ∧ f.osc_parameter = p)) := by
  constructor
  · simp only [VCToyFeatures.get_features_from_param, getFeaturesLoop_eq_filter]
  · simp only [VCToyFeatures.get_features_from_param, getFeaturesLoop_eq_filter]
    constructor
    · intro h f hf hcon
      by_cases hemp :
          ((fs.features.filter
            (fun f => f.feature_enabled && f.osc_parameter == p)).map
            VCToyFeature.toParsed).isEmpty
      · rw [List.isEmpty_iff, List.map_eq_nil_iff, List.filter_eq_nil_iff] at hemp
        exact absurd (by simp [hcon.1, hcon.2]) (hemp f hf)
      · simp [hemp] at h
    · intro h
      have hemp :
          (fs.features.filter
            (fun f => f.feature_enabled && f.osc_parameter == p)) = [] := by
        rw [List.filter_eq_nil_iff]
        intro f hf
        have := h f hf
        intro hb
        rcases Bool.and_eq_true_iff.mp hb with ⟨hb1, hb2⟩
        exact this ⟨hb1, by simpa using hb2⟩
      simp [hemp]

/-- C6: with a loaded config, populate_toy_config adopts the saved feature
table and osc_data exactly when the saved feature count equals the connected
advertised actuator count of the connected device (the sum of its scalar, rotate and linear
entries); on a count mismatch, and whenever no config was loaded, it runs the
auto-populate routine, which rewrites the config file. -/
theorem C6_populate_toy_config (toy : VCToy) (conf : VCToyConfig) :
    (toy.config = some conf →
      (conn_toy_feature_count toy.toy_features = conf.features.features.length →
        populate_toy_config toy =
          ({ toy with
              parsed_toy_features := conf.features
              osc_data := conf.osc_data }, false)) ∧
      (conn_toy_feature_count toy.toy_features ≠ conf.features.features.length →
        populate_toy_config toy = (populate_routine toy, true))) ∧
    (toy.config = none → populate_toy_config toy = (populate_routine toy, true)) := by
  constructor
  · intro hc
    constructor <;> intro hn <;> simp [populate_toy_config, hc, hn]
  · intro hc
    simp [populate_toy_config, hc]

/-- Witness for C6 at a concrete toy whose saved feature count matches the
advertised actuator count. -/
theorem C6_populate_toy_config_witness :
    populate_toy_config
      ⟨3, "n", ⟨some [ActuatorType.Vibrate], none, none⟩, ⟨[]⟩, false,
        some ⟨"n", ⟨[VCToyFeature.new "/avatar/parameters/q" 0 VCFeatureType.Vibrator]⟩, true⟩⟩ =
      (⟨3, "n", ⟨some [ActuatorType.Vibrate], none, none⟩,
        ⟨[VCToyFeature.new "/avatar/parameters/q" 0 VCFeatureType.Vibrator]⟩, true,
        some ⟨"n", ⟨[VCToyFeature.new "/avatar/parameters/q" 0 VCFeatureType.Vibrator]⟩, true⟩⟩,
       false) :=
  ((C6_populate_toy_config
    ⟨3, "n", ⟨some [ActuatorType.Vibrate], none, none⟩, ⟨[]⟩, false,
      some ⟨"n", ⟨[VCToyFeature.new "/avatar/parameters/q" 0 VCFeatureType.Vibrator]⟩, true⟩⟩
    ⟨"n", ⟨[VCToyFeature.new "/avatar/parameters/q" 0 VCFeatureType.Vibrator]⟩, true⟩).1
    rfl).1 rfl



/-- For operands below the u64 modulus with the subtrahend not larger, the
wrapping subtraction agrees with plain subtraction. -/
lemma wrapSub_eq_sub (a b : ℕ) (hba : b ≤ a) (ha : a < U64) :
    wrapSub a b = a - b := by
  have hU : U64 = 18446744073709551616 := by norm_num [U64]
  unfold wrapSub
  rw [hU] at ha ⊢
  omega

/-- C3 counterexample: with last_emit_ms 1, max_per_second 10 and the wall
clock reading 0 (earlier than last_emit_ms), can_send returns true even
though 0 - 1 is below the interval 1000 / 10, because the u64 subtraction
wraps; the claim predicts false here. -/
theorem C3_counterexample :
    (ToyRateLimiter.can_send ⟨1, 10⟩ 0).2 = true ∧
    ¬((0 : ℤ) - 1 ≥ 1000 / 10) := by
  constructor
  · decide
  · decide

/-- C3 (amended): provided the wall-clock reading is not earlier than the
stored last_emit_ms (and below the u64 modulus), can_send with
max_per_second at least 1 returns true exactly when now minus last_emit_ms
reaches the interval 1000 / max_per_second (integer division); on true the
state records now as last_emit_ms, on false the state is unchanged. When the
clock reads earlier than last_emit_ms the u64 subtraction wraps and the
result is true. -/
theorem C3_can_send (st : ToyRateLimiter) (now : ℕ)
    (_hmps : 1 ≤ st.messages_per_second)
    (hlast : st.last_update ≤ now) (hnow : now < U64) :
    ((st.can_send now).2 = true ↔
        now - st.last_update ≥ 1000 / st.messages_per_second) ∧
    ((st.can_send now).2 = true →
        (st.can_send now).1 = { st with last_update := now }) ∧
    ((st.can_send now).2 = false → (st.can_send now).1 = st) := by
  have hw := wrapSub_eq_sub now st.last_update hlast hnow
  by_cases hc : now - st.last_update ≥ 1000 / st.messages_per_second
  · refine ⟨⟨fun _ => hc, fun _ => ?_⟩, fun _ => ?_, fun hf => ?_⟩
    · simp [ToyRateLimiter.can_send, hw, hc]
    · simp [ToyRateLimiter.can_send, hw, hc]
    · simp [ToyRateLimiter.can_send, hw, hc] at hf
  · refine ⟨⟨fun ht => ?_, fun h => absurd h hc⟩, fun ht => ?_, fun _ => ?_⟩
    · simp [ToyRateLimiter.can_send, hw, hc] at ht
    · simp [ToyRateLimiter.can_send, hw, hc] at ht
    · simp [ToyRateLimiter.can_send, hw, hc]

/-- Witness for C3: from last_emit_ms 0 with max_per_second 10, a call at
millisecond 100 is allowed and records 100. -/
theorem C3_can_send_witness :
    (ToyRateLimiter.can_send ⟨0, 10⟩ 100).2 = true ∧
    (ToyRateLimiter.can_send ⟨0, 10⟩ 100).1 = ⟨100, 10⟩ := by
  have h := C3_can_send ⟨0, 10⟩ 100 (by decide) (by decide)
    (by norm_num [U64])
  exact ⟨h.1.mpr (by decide), h.2.1 (h.1.mpr (by decide))⟩

/-- parse_rate on a zero-equivalent input stores the input as both saved
level and saved input and reports SkipZero. -/
lemma parse_rate_skip_zero (st : RateProcessingValues) (dr v : ℚ)
    (flip : Bool) (now : ℚ)
    (hZ : ((!flip && decide (v ≤ 0)) || (flip && decide (v ≥ 1))) = true) :
    parse_rate st dr v flip now = (⟨v, v, st.rate_timestamp⟩, RateParser.SkipZero) := by
  simp [parse_rate, hZ]

/-- parse_rate on a non-zero-equivalent input inside the 150 ms window adds
the clamped distance to the saved level, clamps again, stores the input, and
reports the new level without a timer reset. -/
lemma parse_rate_calc (st : RateProcessingValues) (dr v : ℚ) (flip : Bool)
    (now t : ℚ) (hts : st.rate_timestamp = some t) (hlt : now - t < 15/100)
    (hZ : ((!flip && decide (v ≤ 0)) || (flip && decide (v ≥ 1))) = false) :
    parse_rate st dr v flip now =
      (⟨fclamp (st.rate_saved_level + fclamp |v - st.rate_saved_osc_input| 0 1) 0 1,
          v, st.rate_timestamp⟩,
       RateParser.RateCalculated
         (fclamp (st.rate_saved_level + fclamp |v - st.rate_saved_osc_input| 0 1) 0 1)
         false) := by
  have habs :
      (if st.rate_saved_osc_input > v then
          fclamp (st.rate_saved_osc_input - v) 0 1
        else fclamp (v - st.rate_saved_osc_input) 0 1) =
        fclamp |v - st.rate_saved_osc_input| 0 1 := by
    by_cases hgt : st.rate_saved_osc_input > v
    · rw [if_pos hgt, abs_of_neg (by linarith), neg_sub]
    · rw [if_neg hgt, abs_of_nonneg (by linarith [le_of_not_lt hgt])]
  simp only [parse_rate, hZ, Bool.false_eq_true, if_false, habs, hts]
  rw [if_neg (not_le.mpr hlt)]

/-- C2 counterexample: starting the rate processor at level 0 and feeding
-0.5 (a zero-equivalent input, which stores saved_level = saved_input = -0.5)
followed by 2.0 within the 150 ms window, the second step emits 0.5, because
the distance |2 - (-0.5)| = 2.5 is clamped to 1 before being added; the claim
predicts clamp(-0.5 + 2.5, 0, 1) = 1. -/
theorem C2_counterexample :
    (runMode LevelTweaks.default false 0 (ProcessingModeValues.Rate ⟨0, 0, none⟩)
      [ModeProcessorInputType.Float (-(1/2)), ModeProcessorInputType.Float 2]).2 =
      [some 0, some (1/2)] ∧
    fclamp ((-(1/2)) + |(2 : ℚ) - (-(1/2))|) 0 1 = 1 ∧
    ((1 : ℚ)/2) ≠ 1 := by
  refine ⟨?_, ?_, by norm_num⟩
  · norm_num [runMode, mode_processor_logic, parse_rate, fclamp]
  · rw [show (2 : ℚ) - (-(1/2)) = 5/2 by norm_num,
      abs_of_pos (by norm_num : (0:ℚ) < 5/2)]
    norm_num [fclamp]

/-- C2 (amended): for one step of the rate-mode processor on float input v
with a set timestamp and less than 150 ms elapsed: if Z holds, saved_level
and saved_input are both set to v and the emitted value is 0; if Z does not
hold, saved_level becomes clamp(saved_level + clamp(|v - saved_input|, 0, 1),
0, 1) - the distance is itself clamped to [0,1] before being added -
saved_input becomes v, and the emitted value is the new saved_level. -/
theorem C2_rate_step (st : RateProcessingValues) (L : LevelTweaks)
    (flip : Bool) (v t now : ℚ)
    (hts : st.rate_timestamp = some t) (helapsed : now - t < 15/100) :
    (((!flip && decide (v ≤ 0)) || (flip && decide (v ≥ 1))) = true →
      mode_processor_logic (ModeProcessorInputType.Float v)
          (ProcessingModeValues.Rate st) L flip now =
        (ProcessingModeValues.Rate ⟨v, v, st.rate_timestamp⟩, some 0)) ∧
    (((!flip && decide (v ≤ 0)) || (flip && decide (v ≥ 1))) = false →
      mode_processor_logic (ModeProcessorInputType.Float v)
          (ProcessingModeValues.Rate st) L flip now =
        (ProcessingModeValues.Rate
          ⟨fclamp (st.rate_saved_level + fclamp |v - st.rate_saved_osc_input| 0 1) 0 1,
            v, st.rate_timestamp⟩,
         some (fclamp (st.rate_saved_level + fclamp |v - st.rate_saved_osc_input| 0 1) 0 1))) := by
  have hinit :
      (if st.rate_timestamp = none then { st with rate_timestamp := some now } else st) = st := by
    simp [hts]
  constructor
  · intro hZ
    simp [mode_processor_logic, hinit, parse_rate_skip_zero st L.rate_tune v flip now hZ]
  · intro hZ
    simp [mode_processor_logic, hinit,
      parse_rate_calc st L.rate_tune v flip now t hts helapsed hZ]

/-- Witness for C2: one non-zero rate step within the 150 ms window at a
concrete state. -/
theorem C2_rate_step_witness :
    mode_processor_logic (ModeProcessorInputType.Float (3/10))
        (ProcessingModeValues.Rate ⟨1/10, 2/10, some 0⟩)
        LevelTweaks.default false (1/10) =
      (ProcessingModeValues.Rate ⟨2/10, 3/10, some 0⟩, some (2/10)) := by
  have h := (C2_rate_step ⟨1/10, 2/10, some 0⟩ LevelTweaks.default false
    (3/10) 0 (1/10) rfl (by norm_num)).2 (by norm_num)
  rw [h, show (3 : ℚ)/10 - 2/10 = 1/10 by norm_num,
    abs_of_pos (by norm_num : (0 : ℚ) < 1/10)]
  norm_num [fclamp]

/-- The default smooth_rate casts to the sample count 2. -/
lemma f64AsUsize_two : f64AsUsize 2 = 2 := by decide

/-- Running the mode processor over a concatenation splits into running the
two parts in sequence. -/
lemma runMode_append (L : LevelTweaks) (flip : Bool) (now : ℚ)
    (xs ys : List ModeProcessorInputType) :
    ∀ st : ProcessingModeValues,
      runMode L flip now st (xs ++ ys) =
        ((runMode L flip now (runMode L flip now st xs).1 ys).1,
         (runMode L flip now st xs).2 ++
           (runMode L flip now (runMode L flip now st xs).1 ys).2) := by
  induction xs with
  | nil => intro st; simp [runMode]
  | cons x xs ih => intro st; simp [runMode, ih]

/-- While the smoothing queue stays strictly below smooth_rate, every
non-zero-equivalent float input is pushed and nothing is emitted. -/
lemma runMode_smooth_fill (L : LevelTweaks) (flip : Bool) (now : ℚ) :
    ∀ (vs pre : List ℚ),
      pre.length + vs.length ≤ f64AsUsize L.smooth_rate →
      (∀ v ∈ vs, smoothZeroEquiv flip v = false) →
      runMode L flip now (ProcessingModeValues.Smooth ⟨pre⟩)
          (vs.map ModeProcessorInputType.Float) =
        (ProcessingModeValues.Smooth ⟨pre ++ vs⟩, List.replicate vs.length none) := by
  intro vs
  induction vs with
  | nil => intro pre _ _; simp [runMode]
  | cons v vs ih =>
      intro pre hlen hz
      have hne : ¬(pre.length = f64AsUsize L.smooth_rate) := by
        simp only [List.length_cons] at hlen; omega
      have hzv : smoothZeroEquiv flip v = false := hz v (by simp)
      have hrec := ih (pre ++ [v])
        (by simp only [List.length_append, List.length_singleton,
              List.length_cons, List.length_nil] at hlen ⊢; omega)
        (fun w hw => hz w (by simp [hw]))
      simp [runMode, mode_processor_logic, parse_smoothing, hne, hzv, hrec,
        List.replicate_succ]

/-- C1 counterexample: with smooth_rate 2 and two consecutive non-zero inputs
0.5, 0.5 from an empty queue, the smoothing processor emits nothing at either
step; the claim predicts a Some at step 2. -/
theorem C1_counterexample :
    (runMode LevelTweaks.default false 0 (ProcessingModeValues.Smooth ⟨[]⟩)
        [ModeProcessorInputType.Float (1/2), ModeProcessorInputType.Float (1/2)]).2 =
      [none, none] ∧
    f64AsUsize LevelTweaks.default.smooth_rate = 2 := by
  constructor
  · norm_num [runMode, mode_processor_logic, parse_smoothing, smoothZeroEquiv,
      LevelTweaks.default, f64AsUsize_two]
  · norm_num [LevelTweaks.default, f64AsUsize_two]

/-- C1 (amended): for a smooth-mode feature with smooth_rate k at least 1 and
k + 1 consecutive non-zero-equivalent float inputs fed from an empty queue,
the processor emits None at every step 1..k and emits Some exactly once, at
step k + 1, with value round(mean(v1..vk) * 100) / 100; the (k+1)-th input is
dropped entirely - it never enters the queue - and the smoothing queue
restarts holding only the emitted mean. -/
theorem C1_smooth_emission (L : LevelTweaks) (flip : Bool) (now : ℚ)
    (inputs : List ℚ)
    (_hk : 1 ≤ f64AsUsize L.smooth_rate)
    (hlen : inputs.length = f64AsUsize L.smooth_rate + 1)
    (hz : ∀ v ∈ inputs, smoothZeroEquiv flip v = false) :
    runMode L flip now (ProcessingModeValues.Smooth ⟨[]⟩)
        (inputs.map ModeProcessorInputType.Float) =
      (ProcessingModeValues.Smooth
        ⟨[fround ((inputs.take (f64AsUsize L.smooth_rate)).sum /
            ((f64AsUsize L.smooth_rate : ℕ) : ℚ) * 100) / 100]⟩,
       List.replicate (f64AsUsize L.smooth_rate) none ++
        [some (fround ((inputs.take (f64AsUsize L.smooth_rate)).sum /
            ((f64AsUsize L.smooth_rate : ℕ) : ℚ) * 100) / 100)]) := by
  set k := f64AsUsize L.smooth_rate with hkdef
  have hdroplen : (inputs.drop k).length = 1 := by
    rw [List.length_drop, hlen]; omega
  obtain ⟨w, hw⟩ := List.length_eq_one.mp hdroplen
  have hsplit : inputs = inputs.take k ++ [w] := by
    conv_lhs => rw [← List.take_append_drop k inputs]
    rw [hw]
  have htk : (inputs.take k).length = k := by
    rw [List.length_take, hlen]; omega
  have hzw : smoothZeroEquiv flip w = false :=
    hz w (by rw [hsplit]; simp)
  have hfill := runMode_smooth_fill L flip now (inputs.take k) []
    (by simp [htk]) (fun v hv => hz v (List.take_subset k inputs hv))
  conv_lhs => rw [hsplit]
  rw [List.map_append, runMode_append, hfill]
  simp only [List.nil_append, htk, List.map_cons, List.map_nil]
  simp [runMode, mode_processor_logic, parse_smoothing, htk, hzw]

/-- Witness for C1 with smooth_rate 2 and inputs 0.1, 0.2, 0.6: two Nones
then the rounded mean 0.15 of the first two inputs, with the queue restarted
as exactly that mean and the third input dropped. -/
theorem C1_smooth_emission_witness :
    runMode LevelTweaks.default false 0 (ProcessingModeValues.Smooth ⟨[]⟩)
        [ModeProcessorInputType.Float (1/10), ModeProcessorInputType.Float (2/10),
          ModeProcessorInputType.Float (6/10)] =
      (ProcessingModeValues.Smooth ⟨[3/20]⟩, [none, none, some (3/20)]) := by
  have h := C1_smooth_emission LevelTweaks.default false 0 [1/10, 2/10, 6/10]
    (by norm_num [LevelTweaks.default, f64AsUsize_two])
    (by norm_num [LevelTweaks.default, f64AsUsize_two])
    (by intro v hv
        simp only [List.mem_cons, List.not_mem_nil, or_false] at hv
        rcases hv with h1 | h1 | h1 <;> subst h1 <;> norm_num [smoothZeroEquiv])
  rw [show [ModeProcessorInputType.Float (1/10), ModeProcessorInputType.Float (2/10),
        ModeProcessorInputType.Float (6/10)] =
      ([1/10, 2/10, 6/10] : List ℚ).map ModeProcessorInputType.Float from rfl, h]
  norm_num [LevelTweaks.default, f64AsUsize_two, fround, List.take, List.sum_cons,
    List.replicate_succ]

/-- The linear populate loop enumerates the entries from its start index. -/
lemma populateLinearsLoop_eq (l : List Unit) :
    ∀ i, populateLinearsLoop i l =
      (l.enumFrom i).map (fun p =>
        VCToyFeature.new
          ("/avatar/parameters/" ++ VCFeatureType.Linear.debugName ++ "_" ++ toString p.1)
          p.1 VCFeatureType.Linear) := by
  induction l with
  | nil => intro i; rfl
  | cons a rest ih => intro i; simp [populateLinearsLoop, List.enumFrom, ih]

/-- The rotator populate loop enumerates the entries from its start index. -/
lemma populateRotatorsLoop_eq (l : List Unit) :
    ∀ i, populateRotatorsLoop i l =
      (l.enumFrom i).map (fun p =>
        VCToyFeature.new
          ("/avatar/parameters/" ++ VCFeatureType.Rotator.debugName ++ "_" ++ toString p.1)
          p.1 VCFeatureType.Rotator) := by
  induction l with
  | nil => intro i; rfl
  | cons a rest ih => intro i; simp [populateRotatorsLoop, List.enumFrom, ih]

/-- The scalar populate loop is the filterMap of the spec-side per-entry
description over the enumerated entries. -/
lemma populateScalarsLoop_eq (l : List ActuatorType) :
    ∀ i, populateScalarsLoop i l =
      (l.enumFrom i).filterMap (fun p => scalarFeatureSpec p.1 p.2) := by
  induction l with
  | nil => intro i; rfl
  | cons a rest ih =>
      intro i
      cases a <;> simp [populateScalarsLoop, List.enumFrom, ih, scalarFeatureSpec]

/-- populate_linears appends the enumerated linear features. -/
lemma populate_linears_eq (parsed : List VCToyFeature)
    (feats : ClientDeviceMessageAttributes) :
    populate_linears parsed feats =
      parsed ++ ((feats.linear_cmd.getD []).enum.map (fun p =>
        VCToyFeature.new
          ("/avatar/parameters/" ++ VCFeatureType.Linear.debugName ++ "_" ++ toString p.1)
          p.1 VCFeatureType.Linear)) := by
  cases h : feats.linear_cmd <;>
    simp [populate_linears, h, populateLinearsLoop_eq, List.enum]

/-- populate_rotators appends the enumerated rotator features. -/
lemma populate_rotators_eq (parsed : List VCToyFeature)
    (feats : ClientDeviceMessageAttributes) :
    populate_rotators parsed feats =
      parsed ++ ((feats.rotate_cmd.getD []).enum.map (fun p =>
        VCToyFeature.new
          ("/avatar/parameters/" ++ VCFeatureType.Rotator.debugName ++ "_" ++ toString p.1)
          p.1 VCFeatureType.Rotator)) := by
  cases h : feats.rotate_cmd <;>
    simp [populate_rotators, h, populateRotatorsLoop_eq, List.enum]

/-- populate_scalars appends the filterMap of the spec-side description. -/
lemma populate_scalars_eq (parsed : List VCToyFeature)
    (feats : ClientDeviceMessageAttributes) :
    populate_scalars parsed feats =
      parsed ++ ((feats.scalar_cmd.getD []).enum.filterMap
        (fun p => scalarFeatureSpec p.1 p.2)) := by
  cases h : feats.scalar_cmd <;>
    simp [populate_scalars, h, populateScalarsLoop_eq, List.enum]

/-- C7 counterexample: a device advertising exactly one scalar actuator, of
Unknown kind, gets zero features from the auto-populate routine; the claim
predicts one feature per advertised scalar actuator. -/
theorem C7_counterexample :
    (populate_routine
        ⟨0, "t", ⟨some [ActuatorType.Unknown], none, none⟩, ⟨[]⟩, false, none⟩
      ).parsed_toy_features.features.length = 0 ∧
    conn_toy_feature_count ⟨some [ActuatorType.Unknown], none, none⟩ = 1 :=
  ⟨rfl, rfl⟩

/-- C7 (amended): the auto-populate routine creates, after any pre-existing
features, one feature per advertised linear, rotate and scalar actuator
except scalar actuators of Unknown kind, which create no feature while still
consuming an index; the index of each created feature is the position of the
actuator within the feature list of the device for that kind, and the default OSC parameter
path is /avatar/parameters/<Name>_<index> where Name is the printed feature
type (Rotator for a ScalarRotator). -/
theorem C7_populate_features (toy : VCToy) :
    (populate_routine toy).parsed_toy_features.features =
      toy.parsed_toy_features.features
      ++ ((toy.toy_features.linear_cmd.getD []).enum.map (fun p =>
            VCToyFeature.new
              ("/avatar/parameters/" ++ VCFeatureType.Linear.debugName ++ "_" ++ toString p.1)
              p.1 VCFeatureType.Linear))
      ++ ((toy.toy_features.rotate_cmd.getD []).enum.map (fun p =>
            VCToyFeature.new
              ("/avatar/parameters/" ++ VCFeatureType.Rotator.debugName ++ "_" ++ toString p.1)
              p.1 VCFeatureType.Rotator))
      ++ ((toy.toy_features.scalar_cmd.getD []).enum.filterMap
            (fun p => scalarFeatureSpec p.1 p.2)) := by
  simp [populate_routine, populate_linears_eq, populate_rotators_eq,
    populate_scalars_eq, List.append_assoc]

/-- Witness for C10 at a concrete table: one enabled matching feature and one
disabled feature with the same parameter; only the enabled one is returned. -/
theorem C10_get_features_from_param_witness :
    VCToyFeatures.get_features_from_param
      ⟨[VCToyFeature.new "/a" 0 VCFeatureType.Vibrator,
        { VCToyFeature.new "/a" 1 VCFeatureType.Vibrator with feature_enabled := false }]⟩
      "/a" =
      some [(VCToyFeature.new "/a" 0 VCFeatureType.Vibrator).toParsed] := by
  rw [(C10_get_features_from_param
    ⟨[VCToyFeature.new "/a" 0 VCFeatureType.Vibrator,
      { VCToyFeature.new "/a" 1 VCFeatureType.Vibrator with feature_enabled := false }]⟩
    "/a").1]
  rfl

end VibeCheck
